import Mathlib

/-!
A verification development for the GitSwipe issue-triage application.

The definitions below are a shallow embedding of the TypeScript source:

* `src/services/GitHubService.ts` — `fetchAllIssues`, `fetchOrgIssues`,
  `fetchProjectIssues`, `normalizeSearchIssue`;
* `src/screens/MainScreen.tsx` — filter-change effect, page append,
  `forceSwipe` / `completeSwipe` / safety timer, the pan-responder release
  rule, `handleIssueUpdated`;
* `src/components/IssueDetailModal.tsx` — `handleToggleState`.

External upstream services (the GitHub search REST endpoint and the GraphQL
projects surface) are modelled as explicit response values or response
functions passed to the embedded operations.
-/

namespace GitSwipe

/-! ## Data model (src/types/index.ts) -/

/-- `GitHubUser` from src/types/index.ts. -/
structure GitHubUser where
  id : Nat
  login : String
  name : String
  avatar_url : String
  email : String
deriving DecidableEq, Repr

/-- `GitHubLabel` (the name/color part used by the normalized model). -/
structure GitHubLabel where
  name : String
  color : String
deriving DecidableEq, Repr

/-- The `'open' | 'closed'` state literal type. -/
inductive IssueState where
  | opened
  | closed
deriving DecidableEq, Repr

/-- The optional `project` linkage record of `NormalizedIssue`. -/
structure ProjectLink where
  projectId : String
  projectTitle : String
  statusFieldId : String
  statusValue : String
  itemId : Option String
deriving DecidableEq, Repr

/-- `NormalizedIssue` from src/types/index.ts. -/
structure NormalizedIssue where
  issueId : Nat
  nodeId : Option String
  title : String
  body : String
  repo : String
  org : String
  url : String
  state : IssueState
  labels : List GitHubLabel
  assignees : List GitHubUser
  createdAt : String
  updatedAt : String
  commentCount : Nat
  number : Nat
  user : GitHubUser
  project : Option ProjectLink
deriving DecidableEq, Repr

/-- `IssueSource = 'all' | 'organization'`. -/
inductive IssueSource where
  | all
  | organization
deriving DecidableEq, Repr

/-- `SortOrder = 'updated' | 'created' | 'comments'`. -/
inductive SortOrder where
  | updated
  | created
  | comments
deriving DecidableEq, Repr

/-- `'asc' | 'desc'` sort direction. -/
inductive SortDirection where
  | asc
  | desc
deriving DecidableEq, Repr

/-- `IssueFilters` from src/types/index.ts. -/
structure IssueFilters where
  source : IssueSource
  state : IssueState
  repository : Option String
  labels : Option (List String)
  sortOrder : SortOrder
  sortDirection : SortDirection
  organization : Option String
  assignee : Option String
deriving DecidableEq, Repr

/-- `PaginatedResponse<NormalizedIssue>` from src/types/index.ts. -/
structure PaginatedResponse where
  items : List NormalizedIssue
  totalCount : Nat
  hasNextPage : Bool
deriving DecidableEq, Repr

/-! ## Search surface (GitHubService.fetchAllIssues / fetchOrgIssues)

The GitHub `/search/issues` REST endpoint is external to the repository; it
is modelled as a function from the request parameters to a raw response.
-/

/-- Raw assignee object inside a `/search/issues` item. -/
structure RawAssignee where
  id : Nat
  login : String
  avatar_url : String
deriving DecidableEq, Repr

/-- Raw `user` object inside a `/search/issues` item. -/
structure RawUser where
  id : Nat
  login : String
  avatar_url : String
deriving DecidableEq, Repr

/-- One raw item of a `/search/issues` response, with the fields read by
`GitHubService.normalizeSearchIssue`. -/
structure RawSearchIssue where
  id : Nat
  node_id : String
  title : String
  body : Option String
  repository_url : String
  html_url : String
  state : String
  labels : List GitHubLabel
  assignees : List RawAssignee
  created_at : String
  updated_at : String
  comments : Nat
  number : Nat
  user : Option RawUser
deriving DecidableEq, Repr

/-- A raw `/search/issues` response body (`items`, `total_count`). -/
structure SearchResponse where
  items : List RawSearchIssue
  total_count : Nat
deriving DecidableEq, Repr

/-- The query-string/paging parameters the service sends to
`/search/issues`. -/
structure SearchParams where
  q : String
  sort : String
  direction : String
  page : Nat
  perPage : Nat
deriving DecidableEq, Repr

/-- JS `a || b` on strings: the left value unless it is empty/absent. -/
def strOr (a : Option String) (b : String) : String :=
  match a with
  | none => b
  | some s => if s = "" then b else s

/-- `GitHubService.normalizeSearchIssue` (GitHubService.ts): converts one
raw search item into a `NormalizedIssue`, deriving `org`/`repo` from
`repository_url`. -/
def normalizeSearchIssue (raw : RawSearchIssue) : NormalizedIssue :=
  let repoUrl := raw.repository_url
  let repoParts := (repoUrl.replace "https://api.github.com/repos/" "").splitOn "/"
  let org := repoParts.getD 0 ""
  let repoName := repoParts.getD 1 ""
  let fullName := org ++ "/" ++ repoName
  { issueId := raw.id
    nodeId := some raw.node_id
    title := raw.title
    body := strOr raw.body ""
    repo := fullName
    org := org
    url := raw.html_url
    state := if raw.state = "open" then IssueState.opened else IssueState.closed
    labels := raw.labels
    assignees := raw.assignees.map fun a =>
      { id := a.id, login := a.login, name := a.login
        avatar_url := a.avatar_url, email := "" }
    createdAt := raw.created_at
    updatedAt := raw.updated_at
    commentCount := raw.comments
    number := raw.number
    user :=
      { id := (raw.user.map RawUser.id).getD 0
        login := strOr (raw.user.map RawUser.login) ""
        name := strOr (raw.user.map RawUser.login) ""
        avatar_url := strOr (raw.user.map RawUser.avatar_url) ""
        email := "" }
    project := none }

/-- Rendering of the `'open'|'closed'` literal into the query string. -/
def IssueState.queryText : IssueState → String
  | IssueState.opened => "open"
  | IssueState.closed => "closed"

/-- The `label:"l1" label:"l2" …` fragment of the search query. -/
def labelTerms (labels : List String) : String :=
  String.intercalate " " (labels.map fun l => "label:\"" ++ l ++ "\"")

/-- The search-query string built by `GitHubService.fetchAllIssues`:
`is:issue state:<state> assignee:<login>` plus optional repo, label and
free-text terms. -/
def buildAllIssuesQuery (login : String) (state : IssueState)
    (repo : Option String) (labels : Option (List String))
    (searchQuery : Option String) : String :=
  let q := "is:issue state:" ++ state.queryText ++ " assignee:" ++ login
  let q := match repo with
    | none => q
    | some r => if r = "" then q else q ++ " repo:" ++ r
  let q := match labels with
    | none => q
    | some ls => if ls = [] then q else q ++ " " ++ labelTerms ls
  match searchQuery with
  | none => q
  | some s => if s = "" then q else q ++ " " ++ s

/-- `GitHubService.fetchAllIssues` (GitHubService.ts:201-228): issues one
search query for the requested page against the search surface and wraps
the response; `hasNextPage` is `items.length === perPage`. -/
def fetchAllIssues (search : SearchParams → SearchResponse) (user : GitHubUser)
    (page : Nat) (perPage : Nat) (state : IssueState)
    (sort : String) (direction : String)
    (repo : Option String) (labels : Option (List String))
    (searchQuery : Option String) : PaginatedResponse :=
  let q := buildAllIssuesQuery user.login state repo labels searchQuery
  let data := search { q := q, sort := sort, direction := direction
                       page := page, perPage := perPage }
  { items := data.items.map normalizeSearchIssue
    totalCount := data.total_count
    hasNextPage := data.items.length == perPage }

/-- The search-query string built by `GitHubService.fetchOrgIssues`:
`is:issue state:<state>` plus repo-or-org scoping, assignee resolution
(`me` → caller's login, `unassigned` → `no:assignee`, `all` → nothing,
literal login passes through), labels and free text. -/
def buildOrgIssuesQuery (userLogin : String) (org : String) (state : IssueState)
    (repo : Option String) (assignee : Option String)
    (labels : Option (List String)) (searchQuery : Option String) : String :=
  let q := "is:issue state:" ++ state.queryText
  let q := match repo with
    | none => q ++ " org:" ++ org
    | some r => if r = "" then q ++ " org:" ++ org else q ++ " repo:" ++ r
  let q := match assignee with
    | none => q
    | some a =>
      if a = "me" then q ++ " assignee:" ++ userLogin
      else if a = "unassigned" then q ++ " no:assignee"
      else if a = "" then q
      else if a = "all" then q
      else q ++ " assignee:" ++ a
  let q := match labels with
    | none => q
    | some ls => if ls = [] then q else q ++ " " ++ labelTerms ls
  match searchQuery with
  | none => q
  | some s => if s = "" then q else q ++ " " ++ s

/-- `GitHubService.fetchOrgIssues` (GitHubService.ts:230-269): same paging
wrapper as `fetchAllIssues`, with the organization-scoped query. -/
def fetchOrgIssues (search : SearchParams → SearchResponse) (user : GitHubUser)
    (org : String) (page : Nat) (perPage : Nat) (state : IssueState)
    (sort : String) (direction : String)
    (repo : Option String) (assignee : Option String)
    (labels : Option (List String)) (searchQuery : Option String) :
    PaginatedResponse :=
  let q := buildOrgIssuesQuery user.login org state repo assignee labels searchQuery
  let data := search { q := q, sort := sort, direction := direction
                       page := page, perPage := perPage }
  { items := data.items.map normalizeSearchIssue
    totalCount := data.total_count
    hasNextPage := data.items.length == perPage }

/-- Model of the upstream search surface's offset pagination: page `page`
(1-based) of size `perPage` over a fixed list of matching issues. -/
def searchPageItems (feed : List RawSearchIssue) (page perPage : Nat) :
    List RawSearchIssue :=
  (feed.drop ((page - 1) * perPage)).take perPage

/-- A concrete raw search issue used by scenario instances. -/
def mkRawIssue (k : Nat) : RawSearchIssue :=
  { id := 1000 + k
    node_id := "N" ++ toString k
    title := "Issue " ++ toString k
    body := some "body"
    repository_url := "https://api.github.com/repos/octo/widgets"
    html_url := "https://github.com/octo/widgets/issues/" ++ toString k
    state := "open"
    labels := []
    assignees := []
    created_at := "2024-01-01"
    updated_at := "2024-01-02"
    comments := 0
    number := k + 1
    user := some { id := 7, login := "octocat", avatar_url := "" } }

/-- A feed of 25 matching issues, as in the spec's pagination scenario. -/
def demoFeed : List RawSearchIssue := (List.range 25).map mkRawIssue

/-- The search surface serving `demoFeed` with offset pagination. -/
def demoSearch : SearchParams → SearchResponse := fun p =>
  { items := searchPageItems demoFeed p.page p.perPage
    total_count := demoFeed.length }

/-- The authenticated user for scenario instances. -/
def demoUser : GitHubUser :=
  { id := 7, login := "octocat", name := "Octo Cat", avatar_url := "", email := "" }

/-- C1. For every search-strategy page fetch (`fetchAllIssues` or
`fetchOrgIssues`) with page size `perPage`, the returned `hasNextPage` flag
is true iff the number of items returned for that page equals `perPage`;
and against a feed of 25 matching issues with page size 20, page 1 returns
20 items with `hasNextPage = true` and page 2 returns the remaining 5 with
`hasNextPage = false`. -/
theorem c1_search_hasMore_iff_full_page :
    (∀ (search : SearchParams → SearchResponse) (user : GitHubUser)
        (page perPage : Nat) (state : IssueState) (sort direction : String)
        (repo : Option String) (labels : Option (List String))
        (sq : Option String),
      ((fetchAllIssues search user page perPage state sort direction
          repo labels sq).hasNextPage = true ↔
        (fetchAllIssues search user page perPage state sort direction
          repo labels sq).items.length = perPage))
    ∧
    (∀ (search : SearchParams → SearchResponse) (user : GitHubUser)
        (org : String) (page perPage : Nat) (state : IssueState)
        (sort direction : String) (repo assignee : Option String)
        (labels : Option (List String)) (sq : Option String),
      ((fetchOrgIssues search user org page perPage state sort direction
          repo assignee labels sq).hasNextPage = true ↔
        (fetchOrgIssues search user org page perPage state sort direction
          repo assignee labels sq).items.length = perPage))
    ∧
    (demoFeed.length = 25
      ∧ (fetchAllIssues demoSearch demoUser 1 20 IssueState.opened
          "updated" "desc" none none none).items.length = 20
      ∧ (fetchAllIssues demoSearch demoUser 1 20 IssueState.opened
          "updated" "desc" none none none).hasNextPage = true
      ∧ (fetchAllIssues demoSearch demoUser 2 20 IssueState.opened
          "updated" "desc" none none none).items.length = 5
      ∧ (fetchAllIssues demoSearch demoUser 2 20 IssueState.opened
          "updated" "desc" none none none).hasNextPage = false) := by
  refine ⟨?_, ?_, ?_⟩
  · intro search user page perPage state sort direction repo labels sq
    simp [fetchAllIssues]
  · intro search user org page perPage state sort direction repo assignee labels sq
    simp [fetchOrgIssues]
  · refine ⟨by decide, by decide, by decide, by decide, by decide⟩

/-! ## MainScreen state (MainScreen.tsx)

The React state hooks of `MainScreen` that the claims concern, gathered
into one record: `issues`, `currentIndex`, `page`, `hasMore`, plus the two
animation refs `isAnimatingRef` and the pending settle target scheduled by
`forceSwipe` (targeted by both the spring callback and the safety timer).
-/

/-- The `MainScreen` state touched by the embedded operations. -/
structure ScreenState where
  issues : List NormalizedIssue
  currentIndex : Nat
  page : Nat
  hasMore : Bool
  isAnimating : Bool
  pending : Option Nat
deriving DecidableEq, Repr

/-- The entries of the filter-change effect's dependency array. -/
structure FilterDeps where
  source : IssueSource
  state : IssueState
  sortOrder : SortOrder
  sortDirection : SortDirection
  repository : Option String
  organization : Option String
  assignee : Option String
deriving DecidableEq, Repr

/-- The dependency array of the filter-change `useEffect`
(MainScreen.tsx:87-90): `source, state, sortOrder, sortDirection,
repository, organization, assignee` — `labels` is not listed. -/
def filterEffectDeps (f : IssueFilters) : FilterDeps :=
  { source := f.source, state := f.state, sortOrder := f.sortOrder
    sortDirection := f.sortDirection, repository := f.repository
    organization := f.organization, assignee := f.assignee }

/-- The body of the filter-change effect (MainScreen.tsx:81-86):
`setIssues([]); setCurrentIndex(0); setPage(1); setHasMore(true)` before
`fetchIssues(1, true)` is invoked. -/
def resetDeck (s : ScreenState) : ScreenState :=
  { s with issues := [], currentIndex := 0, page := 1, hasMore := true }

/-- A filter change as React delivers it: the effect re-runs (and resets
the deck) exactly when some entry of its dependency array changed. -/
def applyFilterChange (oldF newF : IssueFilters) (s : ScreenState) : ScreenState :=
  if filterEffectDeps oldF = filterEffectDeps newF then s else resetDeck s

/-- The page-append of `fetchIssues` for a non-reset page
(MainScreen.tsx:122): `setIssues(prev => [...prev, ...result.items])`. -/
def appendPage (prev pageItems : List NormalizedIssue) : List NormalizedIssue :=
  prev ++ pageItems

/-- The (repository, number) identity key of the spec's data model. -/
def issueKey (i : NormalizedIssue) : String × Nat :=
  (i.repo, i.number)

/-- A concrete normalized issue for counterexamples and witnesses. -/
def demoIssue : NormalizedIssue :=
  { issueId := 1001
    nodeId := some "N1"
    title := "Crash on launch"
    body := "body"
    repo := "octo/widgets"
    org := "octo"
    url := "https://github.com/octo/widgets/issues/1"
    state := IssueState.opened
    labels := []
    assignees := []
    createdAt := "2024-01-01"
    updatedAt := "2024-01-02"
    commentCount := 0
    number := 1
    user := demoUser
    project := none }

/-- The default filter value `MainScreen` starts from. -/
def demoFilters : IssueFilters :=
  { source := IssueSource.all
    state := IssueState.opened
    repository := none
    labels := none
    sortOrder := SortOrder.updated
    sortDirection := SortDirection.desc
    organization := none
    assignee := none }

/-- A screen state holding one loaded page. -/
def demoScreen : ScreenState :=
  { issues := [demoIssue]
    currentIndex := 0
    page := 2
    hasMore := true
    isAnimating := false
    pending := none }

/-- C2 (counterexample). A Filter Specification change in which only the
`labels` field differs does not reset the deck: the filter-change effect's
dependency array omits `labels`, so the effect does not re-run and the
loaded items are kept. -/
theorem c2_labels_change_does_not_reset :
    let newF : IssueFilters := { demoFilters with labels := some ["bug"] }
    demoFilters ≠ newF
      ∧ applyFilterChange demoFilters newF demoScreen = demoScreen
      ∧ demoScreen.issues ≠ [] ∧ demoScreen.currentIndex = 0 := by
  refine ⟨by decide, by decide, by decide, rfl⟩

/-- C2 (amended). Changing any field that the effect watches — `source`,
`state`, `sortOrder`, `sortDirection`, `repository`, `organization` or
`assignee` — resets `currentIndex` to 0 and clears the loaded items before
the first page for the new specification is requested; a change that only
touches `labels` does not trigger the reset. -/
theorem c2_watched_field_change_resets (oldF newF : IssueFilters)
    (s : ScreenState) (h : filterEffectDeps oldF ≠ filterEffectDeps newF) :
    (applyFilterChange oldF newF s).currentIndex = 0
      ∧ (applyFilterChange oldF newF s).issues = []
      ∧ (applyFilterChange oldF newF s).page = 1
      ∧ (applyFilterChange oldF newF s).hasMore = true := by
  unfold applyFilterChange
  rw [if_neg h]
  exact ⟨rfl, rfl, rfl, rfl⟩

/-- Witness for `c2_watched_field_change_resets` at a concrete state-field
change. -/
theorem c2_watched_field_change_resets_wit :
    (applyFilterChange demoFilters { demoFilters with state := IssueState.closed }
      demoScreen).currentIndex = 0
      ∧ (applyFilterChange demoFilters
          { demoFilters with state := IssueState.closed } demoScreen).issues = [] := by
  have h := c2_watched_field_change_resets demoFilters
    { demoFilters with state := IssueState.closed } demoScreen (by decide)
  exact ⟨h.1, h.2.1⟩

/-- C3 (counterexample). The page append is plain concatenation with no
deduplication: appending a page that contains an issue already present in
the Deck State yields two items with the same (repository, number) key. -/
theorem c3_append_can_duplicate_keys :
    appendPage [demoIssue] [demoIssue] = [demoIssue, demoIssue]
      ∧ ¬ ((appendPage [demoIssue] [demoIssue]).map issueKey).Nodup := by
  refine ⟨rfl, by decide⟩

/-- C3 (amended). The append performs no deduplication, so the cumulative
Deck State keeps pairwise-distinct (repository, number) keys only when the
existing items and the newly fetched page are each internally key-distinct
and mutually key-disjoint; a page overlapping the already-loaded items
(e.g. after upstream reordering between pages) introduces a duplicate key. -/
theorem c3_append_nodup_of_disjoint (prev pageItems : List NormalizedIssue)
    (h1 : (prev.map issueKey).Nodup)
    (h2 : (pageItems.map issueKey).Nodup)
    (h3 : ∀ k ∈ prev.map issueKey, k ∉ pageItems.map issueKey) :
    ((appendPage prev pageItems).map issueKey).Nodup := by
  unfold appendPage
  rw [List.map_append, List.nodup_append]
  exact ⟨h1, h2, h3⟩

/-- A second concrete issue, key-distinct from `demoIssue`. -/
def demoIssue2 : NormalizedIssue :=
  { demoIssue with
    issueId := 1002
    number := 2
    nodeId := some "N2"
    title := "Typo in README"
    url := "https://github.com/octo/widgets/issues/2" }

/-- Witness for `c3_append_nodup_of_disjoint` on two disjoint singleton
pages. -/
theorem c3_append_nodup_of_disjoint_wit :
    ((appendPage [demoIssue] [demoIssue2]).map issueKey).Nodup :=
  c3_append_nodup_of_disjoint [demoIssue] [demoIssue2]
    (by decide) (by decide) (by decide)

/-! ## Swipe state machine (MainScreen.tsx:176-289) -/

/-- Swipe direction: `'left'` advances, `'right'` retreats. -/
inductive SwipeDir where
  | left
  | right
deriving DecidableEq, Repr

/-- The target index computed by `forceSwipe`
(MainScreen.tsx:202): `direction === 'left' ? idx + 1 : idx - 1`,
as an integer so that the retreat from index 0 is visible as `-1`. -/
def swipeTarget (direction : SwipeDir) (idx : Nat) : Int :=
  match direction with
  | SwipeDir.left => (idx : Int) + 1
  | SwipeDir.right => (idx : Int) - 1

/-- `completeSwipe` (MainScreen.tsx:190-195): reset position, set
`currentIndex` to the target, clear the safety timer and release the
animation lock. -/
def completeSwipe (newIndex : Nat) (s : ScreenState) : ScreenState :=
  { s with currentIndex := newIndex, isAnimating := false, pending := none }

/-- `forceSwipe` (MainScreen.tsx:197-236): ignored while animating; at an
out-of-range target it springs back to center without touching any state;
otherwise it takes the animation lock and schedules `completeSwipe` at the
target (via the spring callback and the 500 ms safety timer). -/
def forceSwipe (direction : SwipeDir) (s : ScreenState) : ScreenState :=
  if s.isAnimating then s
  else
    let t := swipeTarget direction s.currentIndex
    if t < 0 ∨ (s.issues.length : Int) ≤ t then s
    else { s with isAnimating := true, pending := some t.toNat }

/-- The safety-timer callback (MainScreen.tsx:218-222): force-completes
the scheduled swipe only if the animation lock is still held. -/
def safetyTimerFire (newIndex : Nat) (s : ScreenState) : ScreenState :=
  if s.isAnimating then completeSwipe newIndex s else s

/-- The spring-settle completion callback (MainScreen.tsx:233-235): calls
`completeSwipe` unconditionally. -/
def settleCallbackFire (newIndex : Nat) (s : ScreenState) : ScreenState :=
  completeSwipe newIndex s

/-- C5. A swipe whose target index falls outside the loaded list (below 0
or at/past `issues.length`) leaves the state unchanged (spring back to
center, no index change); consequently `currentIndex < issues.length` is
preserved by `forceSwipe`, and any settle it schedules targets an
in-range index, so completing it preserves the bound as well. -/
theorem c5_edge_swipe_is_noop (direction : SwipeDir) (s : ScreenState) :
    ((swipeTarget direction s.currentIndex < 0
        ∨ (s.issues.length : Int) ≤ swipeTarget direction s.currentIndex) →
      forceSwipe direction s = s)
    ∧ (s.currentIndex < s.issues.length →
        (∀ m, s.pending = some m → m < s.issues.length) →
        (forceSwipe direction s).currentIndex < (forceSwipe direction s).issues.length
          ∧ ∀ n, (forceSwipe direction s).pending = some n →
              n < (forceSwipe direction s).issues.length
                ∧ (completeSwipe n (forceSwipe direction s)).currentIndex
                    < (completeSwipe n (forceSwipe direction s)).issues.length) := by
  constructor
  · intro h
    unfold forceSwipe
    by_cases ha : s.isAnimating
    · rw [if_pos ha]
    · rw [if_neg ha]
      simp only [if_pos h]
  · intro hidx hpend
    unfold forceSwipe
    by_cases ha : s.isAnimating
    · rw [if_pos ha]
      exact ⟨hidx, fun n hn => ⟨hpend n hn, hpend n hn⟩⟩
    · rw [if_neg ha]
      by_cases hedge : swipeTarget direction s.currentIndex < 0
          ∨ (s.issues.length : Int) ≤ swipeTarget direction s.currentIndex
      · rw [if_pos hedge]
        exact ⟨hidx, fun n hn => ⟨hpend n hn, hpend n hn⟩⟩
      · rw [if_neg hedge]
        push_neg at hedge
        obtain ⟨h0, hlen⟩ := hedge
        have htn : (swipeTarget direction s.currentIndex).toNat < s.issues.length := by
          omega
        refine ⟨hidx, ?_⟩
        intro n hn
        simp only [Option.some.injEq] at hn
        subst hn
        exact ⟨htn, htn⟩

/-- Witness for `c5_edge_swipe_is_noop`: retreating from index 0 of a
one-item deck is a no-op. -/
theorem c5_edge_swipe_is_noop_wit :
    forceSwipe SwipeDir.right demoScreen = demoScreen
      ∧ (forceSwipe SwipeDir.right demoScreen).currentIndex
          < (forceSwipe SwipeDir.right demoScreen).issues.length := by
  have h := c5_edge_swipe_is_noop SwipeDir.right demoScreen
  exact ⟨h.1 (by decide),
    (h.2 (by decide) (fun m hm => by simp [demoScreen] at hm)).1⟩

/-! ## Gesture release rule (MainScreen.tsx:18-19, 265-281)

Displacement and velocity are modelled as exact rationals; the release
rule only compares them against the constant thresholds.
-/

/-- `SWIPE_THRESHOLD = 50` (MainScreen.tsx:18). -/
def SWIPE_THRESHOLD : ℚ := 50

/-- `SWIPE_VELOCITY_THRESHOLD = 0.25` (MainScreen.tsx:19). -/
def SWIPE_VELOCITY_THRESHOLD : ℚ := 1 / 4

/-- The decision taken in `onPanResponderRelease`
(MainScreen.tsx:265-281): `swipedLeft` when
`dx < -SWIPE_THRESHOLD || (dx < -25 && vx < -SWIPE_VELOCITY_THRESHOLD)`,
`swipedRight` symmetrically, otherwise spring back (`none`). -/
def releaseDecision (dx vx : ℚ) : Option SwipeDir :=
  if dx < -SWIPE_THRESHOLD ∨ (dx < -25 ∧ vx < -SWIPE_VELOCITY_THRESHOLD) then
    some SwipeDir.left
  else if dx > SWIPE_THRESHOLD ∨ (dx > 25 ∧ vx > SWIPE_VELOCITY_THRESHOLD) then
    some SwipeDir.right
  else none

/-- The full release handler: commit via `forceSwipe` in the decided
direction, or spring back leaving the state untouched. -/
def onRelease (dx vx : ℚ) (s : ScreenState) : ScreenState :=
  match releaseDecision dx vx with
  | some d => forceSwipe d s
  | none => s

/-- C6. A release commits in the direction of `dx` iff `|dx|` exceeds the
distance threshold 50, or `|dx|` exceeds the secondary threshold 25 and
`|vx|` exceeds the velocity threshold 0.25 with the velocity pointing the
same way as the displacement; otherwise the card springs back and
`currentIndex` is unchanged. -/
theorem c6_release_commit_rule (dx vx : ℚ) :
    (releaseDecision dx vx = some SwipeDir.left ↔
      (dx < 0 ∧ (50 < |dx| ∨ (25 < |dx| ∧ vx < 0 ∧ 1/4 < |vx|))))
    ∧ (releaseDecision dx vx = some SwipeDir.right ↔
      (0 < dx ∧ (50 < |dx| ∨ (25 < |dx| ∧ 0 < vx ∧ 1/4 < |vx|))))
    ∧ (∀ s : ScreenState, releaseDecision dx vx = none →
        onRelease dx vx s = s) := by
  have hL : (dx < -SWIPE_THRESHOLD ∨ (dx < -25 ∧ vx < -SWIPE_VELOCITY_THRESHOLD)) ↔
      (dx < 0 ∧ (50 < |dx| ∨ (25 < |dx| ∧ vx < 0 ∧ 1/4 < |vx|))) := by
    unfold SWIPE_THRESHOLD SWIPE_VELOCITY_THRESHOLD
    constructor
    · rintro (h | ⟨h1, h2⟩)
      · have hdx : dx < 0 := by linarith
        rw [abs_of_neg hdx]
        exact ⟨hdx, Or.inl (by linarith)⟩
      · have hdx : dx < 0 := by linarith
        have hvx : vx < 0 := by linarith
        rw [abs_of_neg hdx, abs_of_neg hvx]
        exact ⟨hdx, Or.inr ⟨by linarith, hvx, by linarith⟩⟩
    · rintro ⟨hdx, h | ⟨h1, hvx, h2⟩⟩
      · rw [abs_of_neg hdx] at h
        exact Or.inl (by linarith)
      · rw [abs_of_neg hdx] at h1
        rw [abs_of_neg hvx] at h2
        exact Or.inr ⟨by linarith, by linarith⟩
  have hR : (dx > SWIPE_THRESHOLD ∨ (dx > 25 ∧ vx > SWIPE_VELOCITY_THRESHOLD)) ↔
      (0 < dx ∧ (50 < |dx| ∨ (25 < |dx| ∧ 0 < vx ∧ 1/4 < |vx|))) := by
    unfold SWIPE_THRESHOLD SWIPE_VELOCITY_THRESHOLD
    constructor
    · rintro (h | ⟨h1, h2⟩)
      · have hdx : 0 < dx := by linarith
        rw [abs_of_pos hdx]
        exact ⟨hdx, Or.inl (by linarith)⟩
      · have hdx : 0 < dx := by linarith
        have hvx : 0 < vx := by linarith
        rw [abs_of_pos hdx, abs_of_pos hvx]
        exact ⟨hdx, Or.inr ⟨by linarith, hvx, by linarith⟩⟩
    · rintro ⟨hdx, h | ⟨h1, hvx, h2⟩⟩
      · rw [abs_of_pos hdx] at h
        exact Or.inl (by linarith)
      · rw [abs_of_pos hdx] at h1
        rw [abs_of_pos hvx] at h2
        exact Or.inr ⟨by linarith, by linarith⟩
  have hexcl : ¬ ((dx < -SWIPE_THRESHOLD ∨ (dx < -25 ∧ vx < -SWIPE_VELOCITY_THRESHOLD))
      ∧ (dx > SWIPE_THRESHOLD ∨ (dx > 25 ∧ vx > SWIPE_VELOCITY_THRESHOLD))) := by
    unfold SWIPE_THRESHOLD SWIPE_VELOCITY_THRESHOLD
    rintro ⟨(h | ⟨h, _⟩), (h2 | ⟨h2, _⟩)⟩ <;> linarith
  refine ⟨?_, ?_, ?_⟩
  · rw [← hL]
    unfold releaseDecision
    by_cases hc : dx < -SWIPE_THRESHOLD ∨ (dx < -25 ∧ vx < -SWIPE_VELOCITY_THRESHOLD)
    · simp [hc]
    · simp only [if_neg hc]
      constructor
      · intro h
        by_cases hc2 : dx > SWIPE_THRESHOLD ∨ (dx > 25 ∧ vx > SWIPE_VELOCITY_THRESHOLD)
        · rw [if_pos hc2] at h
          exact absurd h (by simp)
        · rw [if_neg hc2] at h
          exact absurd h (by simp)
      · intro h
        exact absurd h hc
  · rw [← hR]
    unfold releaseDecision
    by_cases hc : dx < -SWIPE_THRESHOLD ∨ (dx < -25 ∧ vx < -SWIPE_VELOCITY_THRESHOLD)
    · rw [if_pos hc]
      constructor
      · intro h
        exact absurd h (by simp)
      · intro h
        exact absurd ⟨hc, h⟩ hexcl
    · rw [if_neg hc]
      by_cases hc2 : dx > SWIPE_THRESHOLD ∨ (dx > 25 ∧ vx > SWIPE_VELOCITY_THRESHOLD)
      · simp [hc2]
      · simp [hc2]
  · intro s hnone
    unfold onRelease
    rw [hnone]

/-- Witness for `c6_release_commit_rule`: a 30-pixel, low-velocity release
springs back without touching the state. -/
theorem c6_release_commit_rule_wit :
    onRelease 30 0 demoScreen = demoScreen :=
  (c6_release_commit_rule 30 0).2.2 demoScreen
    (by norm_num [releaseDecision, SWIPE_THRESHOLD, SWIPE_VELOCITY_THRESHOLD])

/-- C7. When `forceSwipe` has scheduled a settle toward index `n` (starting
from a state with no settle outstanding), the safety timer alone
force-completes the transition: `currentIndex` becomes `n` and the
animation lock is released; and a late settle callback arriving after the
timer leaves the state exactly as the timer left it, so the index advances
exactly once and `isAnimating` ends false. -/
theorem c7_safety_timer_force_completes (direction : SwipeDir)
    (s : ScreenState) (n : Nat) (h0 : s.pending = none)
    (h : (forceSwipe direction s).pending = some n) :
    safetyTimerFire n (forceSwipe direction s)
        = completeSwipe n (forceSwipe direction s)
      ∧ (safetyTimerFire n (forceSwipe direction s)).currentIndex = n
      ∧ (safetyTimerFire n (forceSwipe direction s)).isAnimating = false
      ∧ settleCallbackFire n (safetyTimerFire n (forceSwipe direction s))
          = safetyTimerFire n (forceSwipe direction s) := by
  have hs1 : forceSwipe direction s
      = { s with isAnimating := true
                 pending := some (swipeTarget direction s.currentIndex).toNat } := by
    by_cases ha : s.isAnimating = true
    · have hnoop : forceSwipe direction s = s := by
        unfold forceSwipe
        rw [if_pos ha]
      rw [hnoop, h0] at h
      exact absurd h (by simp)
    · by_cases hedge : swipeTarget direction s.currentIndex < 0
          ∨ (s.issues.length : Int) ≤ swipeTarget direction s.currentIndex
      · have hnoop : forceSwipe direction s = s := by
          simp only [forceSwipe, ha]
          rw [if_pos hedge]
          simp
        rw [hnoop, h0] at h
        exact absurd h (by simp)
      · simp only [forceSwipe, ha]
        rw [if_neg hedge]
        simp

  have hn : (swipeTarget direction s.currentIndex).toNat = n := by
    rw [hs1] at h
    simpa using h
  rw [hs1, hn]
  refine ⟨rfl, rfl, rfl, rfl⟩

/-- A two-item deck at rest at index 0. -/
def demoScreen2 : ScreenState :=
  { issues := [demoIssue, demoIssue2]
    currentIndex := 0
    page := 1
    hasMore := false
    isAnimating := false
    pending := none }

/-- Witness for `c7_safety_timer_force_completes` on a two-item deck. -/
theorem c7_safety_timer_force_completes_wit :
    (safetyTimerFire 1 (forceSwipe SwipeDir.left demoScreen2)).currentIndex = 1
      ∧ (safetyTimerFire 1 (forceSwipe SwipeDir.left demoScreen2)).isAnimating
          = false := by
  have h := c7_safety_timer_force_completes SwipeDir.left demoScreen2 1
    rfl (by decide)
  exact ⟨h.2.1, h.2.2.1⟩

/-! ## Mutations (IssueDetailModal.tsx, MainScreen.handleIssueUpdated) -/

/-- `MainScreen.handleIssueUpdated` (MainScreen.tsx:300-305): map over the
loaded items replacing those with the updated issue's `issueId` and
`repo`. -/
def handleIssueUpdated (updated : NormalizedIssue)
    (items : List NormalizedIssue) : List NormalizedIssue :=
  items.map fun i =>
    if i.issueId = updated.issueId ∧ i.repo = updated.repo then updated else i

/-- `handleIssueUpdated` lifted to the screen state: only `setIssues` is
invoked — `currentIndex` and the paging fields are untouched. -/
def issueUpdatedStep (updated : NormalizedIssue) (s : ScreenState) : ScreenState :=
  { s with issues := handleIssueUpdated updated s.issues }

/-- The target state of `IssueDetailModal.handleToggleState`
(IssueDetailModal.tsx:73): `issue.state === 'open' ? 'closed' : 'open'`. -/
def newStateFor (st : IssueState) : IssueState :=
  if st = IssueState.opened then IssueState.closed else IssueState.opened

/-- `IssueDetailModal.handleToggleState` (IssueDetailModal.tsx:71-84) as a
function of the upstream mutation outcome: only when the `PATCH` succeeds
is `onIssueUpdated({...issue, state: newState})` invoked; on a thrown
failure the catch block merely alerts and the Deck State is untouched. -/
def handleToggleState (result : Except String Unit) (issue : NormalizedIssue)
    (s : ScreenState) : ScreenState :=
  match result with
  | Except.ok _ => issueUpdatedStep { issue with state := newStateFor issue.state } s
  | Except.error _ => s

/-- C8. A mutation call that fails with a non-success response changes no
field of any in-memory issue: the failed `handleToggleState` leaves the
screen state identical, and in particular a failed `setState('closed')`
leaves the issue's `state` field as `'open'` in the Deck State. -/
theorem c8_failed_mutation_leaves_state_untouched :
    (∀ (msg : String) (issue : NormalizedIssue) (s : ScreenState),
      handleToggleState (Except.error msg) issue s = s)
    ∧ demoIssue.state = IssueState.opened
    ∧ newStateFor demoIssue.state = IssueState.closed
    ∧ (handleToggleState (Except.error "MutationFailed") demoIssue
        demoScreen).issues = [demoIssue]
    ∧ ((handleToggleState (Except.error "MutationFailed") demoIssue
        demoScreen).issues.getD 0 demoIssue2).state = IssueState.opened := by
  exact ⟨fun msg issue s => rfl, rfl, rfl, rfl, rfl⟩

/-- C9. For a successful mutation, the Deck State entries whose identity
matches the updated issue are replaced in place by it, every other entry
is unchanged positionally, and `currentIndex` is not modified. The code
matches entries by `(issueId, repo)`; under the data-model invariant that
an entry agrees with the updated issue on `(repository, number)` exactly
when it agrees on `(repository, issueId)` — which holds of issues fetched
from the upstream service, where both keys identify the issue — this is
replacement by the (repository, number) identity. -/
theorem c9_success_replaces_matching_entry (updated : NormalizedIssue)
    (s : ScreenState)
    (hcoh : ∀ i ∈ s.issues,
      ((i.issueId = updated.issueId ∧ i.repo = updated.repo) ↔
        (i.number = updated.number ∧ i.repo = updated.repo))) :
    (issueUpdatedStep updated s).currentIndex = s.currentIndex
      ∧ (issueUpdatedStep updated s).page = s.page
      ∧ (issueUpdatedStep updated s).hasMore = s.hasMore
      ∧ (issueUpdatedStep updated s).issues.length = s.issues.length
      ∧ ∀ (k : Nat) (d : NormalizedIssue), k < s.issues.length →
          (issueUpdatedStep updated s).issues.getD k d
            = if (s.issues.getD k d).number = updated.number
                  ∧ (s.issues.getD k d).repo = updated.repo then updated
              else s.issues.getD k d := by
  refine ⟨rfl, rfl, rfl, by simp [issueUpdatedStep, handleIssueUpdated], ?_⟩
  intro k d hk
  have hk2 : k < (handleIssueUpdated updated s.issues).length := by
    simpa [handleIssueUpdated] using hk
  have e1 : (issueUpdatedStep updated s).issues.getD k d
      = (handleIssueUpdated updated s.issues).getD k d := rfl
  rw [e1, List.getD_eq_getElem _ _ hk2, List.getD_eq_getElem _ _ hk]
  have hmem : s.issues[k] ∈ s.issues := List.getElem_mem hk
  simp only [handleIssueUpdated, List.getElem_map]
  rcases (hcoh _ hmem) with ⟨h1, h2⟩
  by_cases hnum : s.issues[k].number = updated.number
      ∧ s.issues[k].repo = updated.repo
  · rw [if_pos (h2 hnum), if_pos hnum]
  · rw [if_neg (fun hid => hnum (h1 hid)), if_neg hnum]

/-- `demoIssue` after a successful close mutation. -/
def demoIssueClosed : NormalizedIssue :=
  { demoIssue with state := IssueState.closed }

/-- Witness for `c9_success_replaces_matching_entry`: closing the only
loaded issue replaces it and keeps the index. -/
theorem c9_success_replaces_matching_entry_wit :
    (issueUpdatedStep demoIssueClosed demoScreen).currentIndex
        = demoScreen.currentIndex
      ∧ (issueUpdatedStep demoIssueClosed demoScreen).issues.getD 0 demoIssue2
        = (if (demoScreen.issues.getD 0 demoIssue2).number = demoIssueClosed.number
              ∧ (demoScreen.issues.getD 0 demoIssue2).repo = demoIssueClosed.repo
            then demoIssueClosed else demoScreen.issues.getD 0 demoIssue2) := by
  have h := c9_success_replaces_matching_entry demoIssueClosed demoScreen
    (by intro i hi; fin_cases hi; decide)
  exact ⟨h.1, h.2.2.2.2 0 demoIssue2 (by decide)⟩

/-! ## Structured surface (GitHubService.fetchProjectIssues)

The GraphQL projects surface is modelled by the response values the two
possible queries (organization-owned and user-owned) would return; a
transport failure of a request is an `Except.error`.
-/

/-- A `ProjectV2ItemFieldSingleSelectValue` node of `fieldValues`: the
selected option name and, when the inline fragment matched, the field's
`id`/`name`. -/
structure FieldValueNode where
  name : Option String
  field : Option (String × String)
deriving DecidableEq, Repr

/-- An assignee node of the GraphQL `assignees` connection. -/
structure GqlUser where
  id : Option Nat
  login : String
  name : Option String
  avatarUrl : Option String
  email : Option String
deriving DecidableEq, Repr

/-- The `author` object of the GraphQL issue content. -/
structure GqlAuthor where
  login : Option String
  avatarUrl : Option String
deriving DecidableEq, Repr

/-- The `repository` object of the GraphQL issue content. -/
structure GqlRepo where
  name : String
  nameWithOwner : String
  ownerLogin : Option String
deriving DecidableEq, Repr

/-- The `... on Issue` content of a project item node. An issue's
`number` of `0` is indistinguishable from an absent number under the
JavaScript truthiness test `!content.number`. -/
structure IssueContent where
  id : String
  number : Nat
  title : String
  body : Option String
  state : String
  url : String
  createdAt : String
  updatedAt : String
  labels : List GitHubLabel
  assignees : List GqlUser
  author : Option GqlAuthor
  repository : Option GqlRepo
  comments : Nat
deriving DecidableEq, Repr

/-- One node of the project `items` connection. -/
structure ProjectItemNode where
  id : String
  fieldValues : List FieldValueNode
  content : Option IssueContent
deriving DecidableEq, Repr

/-- The `projectV2` object of a successful structured query. -/
structure ProjectData where
  id : String
  title : String
  totalCount : Nat
  endCursor : Option String
  hasNextPage : Bool
  nodes : List ProjectItemNode
deriving DecidableEq, Repr

/-- A parsed GraphQL response body: an `errors` flag and the (possibly
null) `projectV2` payload. -/
structure GraphqlResult where
  hasErrors : Bool
  project : Option ProjectData
deriving DecidableEq, Repr

/-- Which owner shape a structured query addresses:
`organization(login:)` or `user(login:)`. -/
inductive OwnerKind where
  | org
  | user
deriving DecidableEq, Repr

/-- The variables of one structured query as sent by
`fetchProjectIssues`. -/
structure GraphqlRequest where
  kind : OwnerKind
  owner : String
  number : Nat
  first : Nat
  after : Option String
deriving DecidableEq, Repr

/-- JavaScript `toLowerCase` on one character (ASCII range, which covers
every string the embedded code compares). -/
def lowerChar (c : Char) : Char :=
  if 65 ≤ c.toNat ∧ c.toNat ≤ 90 then Char.ofNat (c.toNat + 32) else c

/-- JavaScript `toLowerCase` over a string's characters. -/
def lowerChars (s : List Char) : List Char := s.map lowerChar

/-- Whether `pat` is a prefix of `s`. -/
def charsPrefixOf : List Char → List Char → Bool
  | [], _ => true
  | _ :: _, [] => false
  | a :: as, b :: bs => a = b && charsPrefixOf as bs

/-- Whether `pat` occurs contiguously inside `s` (JS `includes`). -/
def charsInfixOf (pat s : List Char) : Bool :=
  match s with
  | [] => charsPrefixOf pat []
  | _ :: rest => charsPrefixOf pat s || charsInfixOf pat rest

/-- `name.toLowerCase().includes('status')`: case-insensitive substring
test against `"status"`. -/
def containsStatus (s : String) : Bool :=
  charsInfixOf "status".data (lowerChars s.data)

/-- The `fieldValues` scan of `fetchProjectIssues`
(GitHubService.ts:349-356): the last field value whose (truthy) name
belongs to a field whose name contains `status` wins; yields
`(statusValue, statusFieldId)`, both defaulting to `""`. -/
def extractStatus (fvs : List FieldValueNode) : String × String :=
  fvs.foldl
    (fun acc fv =>
      match fv.name, fv.field with
      | some n, some idName =>
          if n ≠ "" ∧ containsStatus idName.2 then (n, idName.1) else acc
      | _, _ => acc)
    ("", "")

/-- The client-side status predicate (GitHubService.ts:358): the node is
skipped when a non-empty filter other than `'all'` differs
case-insensitively from the node's status value. -/
def statusSkips (statusFilter : Option String) (statusValue : String) : Bool :=
  match statusFilter with
  | none => false
  | some sf => sf ≠ "" && sf ≠ "all" && lowerChars statusValue.data ≠ lowerChars sf.data

/-- The client-side repository predicate (GitHubService.ts:359): with a
non-empty filter, the node is skipped unless `repository.nameWithOwner`
equals it (an absent repository is skipped too). -/
def repoSkips (repoFilter : Option String) (repository : Option GqlRepo) : Bool :=
  match repoFilter with
  | none => false
  | some rf =>
      rf ≠ "" &&
        (match repository with
         | none => true
         | some r => r.nameWithOwner ≠ rf)

/-- The client-side assignee predicate (GitHubService.ts:360-364):
`'unassigned'` skips nodes with any assignee; a literal login other than
`'all'`/`'unassigned'` skips nodes not assigned to it. -/
def assigneeSkips (assigneeFilter : Option String) (logins : List String) : Bool :=
  match assigneeFilter with
  | none => false
  | some af =>
      af ≠ "" &&
        ((af = "unassigned" && logins ≠ []) ||
          (af ≠ "all" && af ≠ "unassigned" && !(logins.contains af)))

/-- The `NormalizedIssue` built for a passing node
(GitHubService.ts:366-392). -/
def buildProjectIssue (owner : String) (projectData : ProjectData)
    (node : ProjectItemNode) (content : IssueContent)
    (statusValue statusFieldId : String) : NormalizedIssue :=
  { issueId := content.number
    nodeId := some content.id
    title := content.title
    body := strOr content.body ""
    repo := strOr (content.repository.map GqlRepo.nameWithOwner) ""
    org := strOr (content.repository.bind GqlRepo.ownerLogin) owner
    url := content.url
    state := if lowerChars content.state.data = "open".data then IssueState.opened
             else IssueState.closed
    labels := content.labels
    assignees := content.assignees.map fun a =>
      { id := a.id.getD 0
        login := a.login
        name := strOr a.name a.login
        avatar_url := strOr a.avatarUrl ""
        email := strOr a.email "" }
    createdAt := content.createdAt
    updatedAt := content.updatedAt
    commentCount := content.comments
    number := content.number
    user :=
      { id := 0
        login := strOr (content.author.bind GqlAuthor.login) ""
        name := strOr (content.author.bind GqlAuthor.login) ""
        avatar_url := strOr (content.author.bind GqlAuthor.avatarUrl) ""
        email := "" }
    project := some
      { projectId := projectData.id
        projectTitle := projectData.title
        statusFieldId := statusFieldId
        statusValue := statusValue
        itemId := some node.id } }

/-- The per-node branch of the `for` loop (GitHubService.ts:345-393):
`none` when the node is dropped (no content, falsy number, or a failing
client-side predicate), otherwise the normalized issue. -/
def processNode (owner : String) (projectData : ProjectData)
    (statusFilter assigneeFilter repoFilter : Option String)
    (node : ProjectItemNode) : Option NormalizedIssue :=
  match node.content with
  | none => none
  | some content =>
      if content.number = 0 then none
      else
        let sv := extractStatus node.fieldValues
        if statusSkips statusFilter sv.1 then none
        else if repoSkips repoFilter content.repository then none
        else if assigneeSkips assigneeFilter (content.assignees.map GqlUser.login)
          then none
        else some (buildProjectIssue owner projectData node content sv.1 sv.2)

/-- The result record of `fetchProjectIssues`
(`PaginatedResponse & { endCursor?: string }`). -/
structure ProjectPage where
  items : List NormalizedIssue
  totalCount : Nat
  hasNextPage : Bool
  endCursor : Option String
deriving DecidableEq, Repr

/-- The tail of `fetchProjectIssues` (GitHubService.ts:334-400) applied to
the chosen response: errors and a missing project yield an empty page;
otherwise the node loop runs and `totalCount`/`pageInfo` are passed
through from the raw `items` connection. -/
def projectPageOf (owner : String)
    (statusFilter assigneeFilter repoFilter : Option String)
    (result : GraphqlResult) : ProjectPage :=
  if result.hasErrors then
    { items := [], totalCount := 0, hasNextPage := false, endCursor := none }
  else
    match result.project with
    | none => { items := [], totalCount := 0, hasNextPage := false, endCursor := none }
    | some pd =>
        { items := pd.nodes.filterMap
            (processNode owner pd statusFilter assigneeFilter repoFilter)
          totalCount := pd.totalCount
          hasNextPage := pd.hasNextPage
          endCursor := pd.endCursor }

/-- `GitHubService.fetchProjectIssues` (GitHubService.ts:271-401) over the
modelled upstream: the first request addresses the organization-style
owner; if that request throws, or succeeds with no project and no errors,
the single catch block re-issues the same variables against the
user-style owner. The returned trace lists the requests actually issued;
`Except.error` is a transport failure propagating to the caller. -/
def fetchProjectIssues (owner : String) (projectNumber : Nat)
    (cursor : Option String) (perPage : Nat)
    (statusFilter assigneeFilter repoFilter : Option String)
    (orgResp userResp : Except Unit GraphqlResult) :
    List GraphqlRequest × Except Unit ProjectPage :=
  let orgReq : GraphqlRequest :=
    { kind := OwnerKind.org, owner := owner, number := projectNumber
      first := perPage, after := cursor }
  let userReq : GraphqlRequest :=
    { kind := OwnerKind.user, owner := owner, number := projectNumber
      first := perPage, after := cursor }
  let finish := projectPageOf owner statusFilter assigneeFilter repoFilter
  match orgResp with
  | Except.error _ =>
      match userResp with
      | Except.error e => ([orgReq, userReq], Except.error e)
      | Except.ok r => ([orgReq, userReq], Except.ok (finish r))
  | Except.ok r =>
      if r.project = none ∧ r.hasErrors = false then
        match userResp with
        | Except.error e => ([orgReq, userReq], Except.error e)
        | Except.ok r2 => ([orgReq, userReq], Except.ok (finish r2))
      else ([orgReq], Except.ok (finish r))

/-- Inversion of the per-node loop branch: a node that produces an item
has issue content with a truthy number and passes every client-side
predicate. -/
theorem processNode_some_inv (owner : String) (pd : ProjectData)
    (sf af rf : Option String) (node : ProjectItemNode) (i : NormalizedIssue)
    (h : processNode owner pd sf af rf node = some i) :
    ∃ c, node.content = some c ∧ c.number ≠ 0
      ∧ statusSkips sf (extractStatus node.fieldValues).1 = false
      ∧ repoSkips rf c.repository = false
      ∧ assigneeSkips af (c.assignees.map GqlUser.login) = false := by
  unfold processNode at h
  split at h
  · exact absurd h (by simp)
  · rename_i content hc
    simp only [] at h
    by_cases h0 : content.number = 0
    · rw [if_pos h0] at h; exact absurd h (by simp)
    · rw [if_neg h0] at h
      by_cases hs : statusSkips sf (extractStatus node.fieldValues).1 = true
      · rw [if_pos hs] at h; exact absurd h (by simp)
      · rw [if_neg hs] at h
        by_cases hr : repoSkips rf content.repository = true
        · rw [if_pos hr] at h; exact absurd h (by simp)
        · rw [if_neg hr] at h
          by_cases ha : assigneeSkips af (content.assignees.map GqlUser.login) = true
          · rw [if_pos ha] at h; exact absurd h (by simp)
          · exact ⟨content, hc, h0,
              Bool.not_eq_true _ ▸ Bool.of_not_eq_true hs,
              Bool.of_not_eq_true hr, Bool.of_not_eq_true ha⟩

/-- One node of the scenario page: a one-entry `fieldValues` list naming
a `Status` field, `Todo` for the first seven nodes and `Done` for the
rest. -/
def demoNode (k : Nat) : ProjectItemNode :=
  { id := "PVTI_" ++ toString k
    fieldValues :=
      [{ name := some (if k < 7 then "Todo" else "Done")
         field := some ("FLD_status", "Status") }]
    content := some
      { id := "I_" ++ toString k
        number := k + 1
        title := "Task " ++ toString k
        body := some "b"
        state := "OPEN"
        url := "https://github.com/octo/widgets/issues/" ++ toString (k + 1)
        createdAt := "2024-01-01"
        updatedAt := "2024-01-02"
        labels := []
        assignees := []
        author := some { login := some "octocat", avatarUrl := some "" }
        repository := some
          { name := "widgets", nameWithOwner := "octo/widgets"
            ownerLogin := some "octo" }
        comments := 0 } }

/-- The scenario project page: 10 nodes, upstream `totalCount` 42. -/
def demoProject : ProjectData :=
  { id := "PVT_1", title := "Board", totalCount := 42
    endCursor := some "cursor2", hasNextPage := true
    nodes := (List.range 10).map demoNode }

/-- C4. For a structured-surface page, nodes lacking a resolvable issue
number and nodes failing the client-side status/assignee/repository
predicates are excluded from `items`, while `totalCount` is the upstream
page's raw total; a page of 10 nodes of which 3 fail the status filter
yields 7 items with `totalCount` still the raw upstream count (42). -/
theorem c4_structured_page_filters_clientside :
    (∀ (owner : String) (sf af rf : Option String) (r : GraphqlResult)
        (pd : ProjectData), r.hasErrors = false → r.project = some pd →
      (projectPageOf owner sf af rf r).totalCount = pd.totalCount
        ∧ (projectPageOf owner sf af rf r).items.length ≤ pd.nodes.length
        ∧ ∀ i ∈ (projectPageOf owner sf af rf r).items,
            ∃ node ∈ pd.nodes, ∃ c, node.content = some c ∧ c.number ≠ 0
              ∧ statusSkips sf (extractStatus node.fieldValues).1 = false
              ∧ repoSkips rf c.repository = false
              ∧ assigneeSkips af (c.assignees.map GqlUser.login) = false)
    ∧ ((fetchProjectIssues "octo" 5 none 50 (some "todo") none none
          (Except.ok { hasErrors := false, project := some demoProject })
          (Except.error ())).2.toOption.map ProjectPage.items).map List.length
        = some 7
    ∧ (fetchProjectIssues "octo" 5 none 50 (some "todo") none none
          (Except.ok { hasErrors := false, project := some demoProject })
          (Except.error ())).2.toOption.map ProjectPage.totalCount = some 42
    ∧ demoProject.nodes.length = 10 ∧ demoProject.totalCount = 42 := by
  refine ⟨?_, by decide, by decide, by decide, by decide⟩
  intro owner sf af rf r pd herr hproj
  have hpage : projectPageOf owner sf af rf r
      = { items := pd.nodes.filterMap (processNode owner pd sf af rf)
          totalCount := pd.totalCount
          hasNextPage := pd.hasNextPage
          endCursor := pd.endCursor } := by
    unfold projectPageOf
    rw [herr, hproj]
    simp
  rw [hpage]
  refine ⟨rfl, List.length_filterMap_le _ _, ?_⟩
  intro i hi
  obtain ⟨node, hnode, hp⟩ := List.mem_filterMap.mp hi
  exact ⟨node, hnode, processNode_some_inv owner pd sf af rf node i hp⟩

/-- Witness for `c4_structured_page_filters_clientside` at the scenario
response. -/
theorem c4_structured_page_filters_clientside_wit :
    (projectPageOf "octo" (some "todo") none none
        { hasErrors := false, project := some demoProject }).totalCount
      = demoProject.totalCount := by
  have h := c4_structured_page_filters_clientside.1 "octo" (some "todo")
    none none { hasErrors := false, project := some demoProject }
    demoProject rfl rfl
  exact h.1

/-- C10. When the organization-style structured query returns no project
and no error, `fetchProjectIssues` retries exactly once with the same
variables against the user-style owner before declaring failure, and in
every case it issues at most the organization request plus that single
fallback — no other internal retry exists. -/
theorem c10_org_then_user_fallback_once (owner : String) (projectNumber : Nat)
    (cursor : Option String) (perPage : Nat) (sf af rf : Option String)
    (orgResp userResp : Except Unit GraphqlResult) :
    (∀ r, orgResp = Except.ok r → r.project = none → r.hasErrors = false →
      (fetchProjectIssues owner projectNumber cursor perPage sf af rf
          orgResp userResp).1
        = [{ kind := OwnerKind.org, owner := owner, number := projectNumber
             first := perPage, after := cursor },
           { kind := OwnerKind.user, owner := owner, number := projectNumber
             first := perPage, after := cursor }])
    ∧ ((fetchProjectIssues owner projectNumber cursor perPage sf af rf
          orgResp userResp).1
        = [{ kind := OwnerKind.org, owner := owner, number := projectNumber
             first := perPage, after := cursor }]
      ∨ (fetchProjectIssues owner projectNumber cursor perPage sf af rf
          orgResp userResp).1
        = [{ kind := OwnerKind.org, owner := owner, number := projectNumber
             first := perPage, after := cursor },
           { kind := OwnerKind.user, owner := owner, number := projectNumber
             first := perPage, after := cursor }]) := by
  cases orgResp with
  | error e =>
      constructor
      · intro r hr
        exact absurd hr (by simp)
      · right
        cases userResp with
        | error e2 => rfl
        | ok r2 => rfl
  | ok r =>
      by_cases hc : r.project = none ∧ r.hasErrors = false
      · have htrace : (fetchProjectIssues owner projectNumber cursor perPage
            sf af rf (Except.ok r) userResp).1
            = [{ kind := OwnerKind.org, owner := owner, number := projectNumber
                 first := perPage, after := cursor },
               { kind := OwnerKind.user, owner := owner, number := projectNumber
                 first := perPage, after := cursor }] := by
          unfold fetchProjectIssues
          dsimp only []
          rw [if_pos hc]
          cases userResp with
          | error e2 => rfl
          | ok r2 => rfl
        exact ⟨fun r' hr' h1 h2 => htrace, Or.inr htrace⟩
      · have htrace : (fetchProjectIssues owner projectNumber cursor perPage
            sf af rf (Except.ok r) userResp).1
            = [{ kind := OwnerKind.org, owner := owner, number := projectNumber
                 first := perPage, after := cursor }] := by
          unfold fetchProjectIssues
          dsimp only []
          rw [if_neg hc]
        constructor
        · intro r' hr' h1 h2
          rw [show r = r' from by injection hr'] at hc
          exact absurd ⟨h1, h2⟩ hc
        · exact Or.inl htrace

/-- Witness for `c10_org_then_user_fallback_once`: an empty successful
organization response (no project, no errors) produces exactly the
organization request followed by the user-style fallback. -/
theorem c10_org_then_user_fallback_once_wit :
    (fetchProjectIssues "octo" 5 none 50 none none none
        (Except.ok { hasErrors := false, project := none })
        (Except.ok { hasErrors := false, project := some demoProject })).1
      = [{ kind := OwnerKind.org, owner := "octo", number := 5
           first := 50, after := none },
         { kind := OwnerKind.user, owner := "octo", number := 5
           first := 50, after := none }] :=
  (c10_org_then_user_fallback_once "octo" 5 none 50 none none none
      (Except.ok { hasErrors := false, project := none })
      (Except.ok { hasErrors := false, project := some demoProject })).1
    { hasErrors := false, project := none } rfl rfl rfl

end GitSwipe
